import Mathlib

/-!
Shallow embedding of `src/graph.py`, a visualization script for a
round-robin load balancer simulation.  The script reads one CSV file that
holds two concatenated tables separated by the sentinel line
`# Server Load History`, parses each half with `pandas.read_csv`, and
renders five charts.

Modelling conventions:
* A file system `FS` maps a file name to the list of lines `readlines`
  would return, `none` when the file is missing (line terminators are
  irrelevant to every claim and are left implicit in the line strings).
  `FS` is deliberately read-error-free: reading a present file can in
  fact fail in other ways (undecodable bytes, a directory path), and the
  extended file system `FSx` with `load_and_parse_data_x` models those
  read errors together with the generic handler's unprotected re-read of
  the file, from which such an exception propagates to the caller.
  `load_and_parse_data_x_lift` shows the two models agree on `FS`.
* `pandas.read_csv` is external library code; it is abstracted as a
  parameter `parse : List String → Except String α` that either yields a
  typed table or fails with the exception's message.  The metrics table is
  a list of rows with the columns `server_id, server_load`; the history
  table has columns `server_id, time_step, load`.  Loads are rationals.
* Python exceptions inside the `try` block of `load_and_parse_data` are
  values of `PyErr`; the `except` clauses are a total `match` on the
  outcome, so the Lean function returns `none` exactly where Python
  returns `(None, None)`.
* `print` calls are collected in a `prints : List String` field (the
  argument strings, with their leading newlines; the informational
  column-listing prints of the `try` block are omitted because the typed
  model fixes the schemas).  File operations are collected in an
  `ops : List FileOp` trace: the script only ever calls
  `open(filename, 'r')`, which the model records as `FileOp.read`.
-/

/-- The sentinel marker from `graph.py` line 40. -/
def marker : String := "# Server Load History"

/-- The file name `main` passes to `load_and_parse_data` (line 221). -/
def dataFile : String := "load_balancer_data.csv"

/-- One row of the metrics table: which server handled a request and that
server's load at that moment. -/
structure MRow where
  server_id : Int
  server_load : ℚ
deriving DecidableEq, Repr

/-- One row of the history table: a server's load at a time step. -/
structure HRow where
  server_id : Int
  time_step : Int
  load : ℚ
deriving DecidableEq, Repr

abbrev Metrics := List MRow
abbrev History := List HRow

/-- A file system: maps a file name to its lines, `none` when missing. -/
abbrev FS := String → Option (List String)

/-- A file operation performed by the script.  The script never writes, but
the model can express writes so that their absence is a real statement. -/
inductive FileOp where
  | read (name : String)
  | write (name : String)
deriving DecidableEq, Repr

/-- A Python exception raised inside the `try` block of
`load_and_parse_data`: the `FileNotFoundError` from `open`, or any other
exception (the `ValueError` of line 45, a `read_csv` failure) carrying its
`str(e)` message. -/
inductive PyErr where
  | fileNotFound
  | exn (msg : String)
deriving DecidableEq, Repr

/-- Python's `str.startswith`, on the strings' character lists. -/
def startsWith (pre s : String) : Bool := pre.data.isPrefixOf s.data

/-- Lines 39–42 of `graph.py`: the first index whose line starts with
`# Server Load History`, `none` when no line does. -/
def findMarkerIdx : List String → Option Nat
  | [] => none
  | l :: ls =>
    if startsWith marker l then some 0
    else (findMarkerIdx ls).map (· + 1)

/-- The `try` block of `load_and_parse_data` (lines 31–60): read the file,
find the sentinel, parse the lines strictly before it as the metrics table
and the lines strictly after it as the history table.  Returns the tables
or the exception, paired with the prints the block made before returning. -/
def load_body (parseM : List String → Except String Metrics)
    (parseH : List String → Except String History)
    (fs : FS) (filename : String) :
    Except PyErr (Metrics × History) × List String :=
  match fs filename with
  | none => (.error .fileNotFound, [])
  | some lines =>
    let p0 := "  Total lines read: " ++ toString lines.length
    match findMarkerIdx lines with
    | none =>
      (.error (.exn "Could not find '# Server Load History' marker in CSV"), [p0])
    | some i =>
      let p1 := "  Split index found at line: " ++ toString i
      match parseM (lines.take i) with
      | .error msg => (.error (.exn msg), [p0, p1])
      | .ok metrics_df =>
        match parseH (lines.drop (i + 1)) with
        | .error msg => (.error (.exn msg), [p0, p1])
        | .ok history_df => (.ok (metrics_df, history_df), [p0, p1])

/-- Lines 68–72 of `graph.py`: the generic `except` handler re-opens the
file and prints its first 10 lines, each right-stripped. -/
def firstTenLinesDump (lines : List String) : List String :=
  (lines.take 10).enum.map
    (fun p => "  Line " ++ toString p.1 ++ ": " ++ p.2.trimRight)

/-- The outcome of `load_and_parse_data`: the returned pair (`none` models
Python's `(None, None)`), the prints, and the file-operation trace. -/
structure LoadResult where
  result : Option (Metrics × History)
  prints : List String
  ops : List FileOp
deriving Repr

/-- `load_and_parse_data` (lines 28–73) over the read-error-free `FS`:
the `try` block wrapped in the two `except` clauses.  `FileNotFoundError`
prints the file-not-found report; any other exception prints the
parse-error report and the first 10 lines of the file.  Both handlers
return `(None, None)`, modelled as `none`.  Over `FS` the handler's
re-read always succeeds (the file decoded once already); the case where
that unprotected re-read itself raises needs `FSx` and is modelled by
`load_and_parse_data_x`. -/
def load_and_parse_data (parseM : List String → Except String Metrics)
    (parseH : List String → Except String History)
    (fs : FS) (filename : String) : LoadResult :=
  match load_body parseM parseH fs filename with
  | (.ok dfs, ps) => { result := some dfs, prints := ps, ops := [.read filename] }
  | (.error .fileNotFound, ps) =>
    { result := none
      prints := ps ++
        ["\n❌ ERROR: File '" ++ filename ++ "' not found!",
         "   Please upload the file first."]
      ops := [.read filename] }
  | (.error (.exn msg), ps) =>
    { result := none
      prints := ps ++
        ["\n❌ ERROR parsing file: " ++ msg, "\nFirst 10 lines of the file:"] ++
        firstTenLinesDump ((fs filename).getD [])
      ops := [.read filename, .read filename] }

/-- Tags for the five chart-producing calls of `main` (lines 232–244). -/
inductive Chart where
  | requestDistribution
  | serverLoadsOverTime
  | loadHeatmap
  | loadStatistics
  | summaryDashboard
deriving DecidableEq, Repr

/-- The outcome of `main`: the charts rendered in order, the prints, and
the file-operation trace. -/
structure MainResult where
  charts : List Chart
  prints : List String
  ops : List FileOp
deriving Repr

namespace Graph

/-- `main` (lines 218–250): load the data; on `(None, None)` print the
failure message and return with no chart rendered; otherwise render the
five charts in their fixed order. -/
def main (parseM : List String → Except String Metrics)
    (parseH : List String → Except String History)
    (fs : FS) : MainResult :=
  let lr := load_and_parse_data parseM parseH fs dataFile
  match lr.result with
  | none =>
    { charts := []
      prints := ["\n[1/6] Loading data from CSV..."] ++ lr.prints ++
        ["\n❌ Failed to load data. Please check the file and try again."]
      ops := lr.ops }
  | some (metrics_df, history_df) =>
    { charts := [.requestDistribution, .serverLoadsOverTime, .loadHeatmap,
                 .loadStatistics, .summaryDashboard]
      prints := ["\n[1/6] Loading data from CSV..."] ++ lr.prints ++
        ["  Loaded " ++ toString metrics_df.length ++ " request metrics",
         "  Loaded " ++ toString history_df.length ++ " load history records",
         "\n[2/6] Creating request distribution plot...",
         "\n[3/6] Creating server load timeline...",
         "\n[4/6] Creating load heatmap...",
         "\n[5/6] Creating load statistics plot...",
         "\n[6/6] Creating summary dashboard..."]
      ops := lr.ops }

end Graph

/-! ### Read errors and the handler's unprotected re-read

`open`/`readlines` can fail other than by absence: a directory path
raises `IsADirectoryError`, undecodable bytes raise `UnicodeDecodeError`.
The file system `FSx` below distinguishes these outcomes, and
`load_and_parse_data_x` is `load_and_parse_data` over it.  The point of
the extension: the generic `except` handler (lines 69–72) re-opens the
file with no `try` around it, so a read error recurs there and the
exception leaves the function — `LoadResultX.outcome` is `Except.error`
exactly in that case.  `FS` is the read-error-free restriction (`liftFS`
embeds it), and on it the two models agree
(`load_and_parse_data_x_lift`). -/

/-- What reading a file can yield: the file is absent
(`FileNotFoundError` from `open`), reading raises some other error
(`IsADirectoryError`, `UnicodeDecodeError`, …, carrying its `str(e)`
message and recurring identically on every read of the fixed file), or
the decoded lines. -/
inductive ReadResult where
  | missing
  | readError (msg : String)
  | ok (lines : List String)
deriving DecidableEq, Repr

/-- A file system whose reads can also fail with a read error. -/
abbrev FSx := String → ReadResult

/-- An `FS` is the read-error-free part of an `FSx`. -/
def liftFS (fs : FS) : FSx := fun n =>
  match fs n with
  | none => .missing
  | some lines => .ok lines

/-- The `try` block over `FSx`: as `load_body`, except that a read error
from `open`/`readlines` (lines 32–33, inside the `try`) is raised as a
generic exception — only `FileNotFoundError` has a handler of its own. -/
def load_body_x (parseM : List String → Except String Metrics)
    (parseH : List String → Except String History)
    (fs : FSx) (filename : String) :
    Except PyErr (Metrics × History) × List String :=
  match fs filename with
  | .missing => (.error .fileNotFound, [])
  | .readError msg => (.error (.exn msg), [])
  | .ok lines =>
    let p0 := "  Total lines read: " ++ toString lines.length
    match findMarkerIdx lines with
    | none =>
      (.error (.exn "Could not find '# Server Load History' marker in CSV"), [p0])
    | some i =>
      let p1 := "  Split index found at line: " ++ toString i
      match parseM (lines.take i) with
      | .error msg => (.error (.exn msg), [p0, p1])
      | .ok metrics_df =>
        match parseH (lines.drop (i + 1)) with
        | .error msg => (.error (.exn msg), [p0, p1])
        | .ok history_df => (.ok (metrics_df, history_df), [p0, p1])

/-- The outcome of `load_and_parse_data` when reads can fail: `.ok` is a
normal return (`some` tables or Python's `(None, None)`), `.error` an
exception that propagates to the caller. -/
structure LoadResultX where
  outcome : Except String (Option (Metrics × History))
  prints : List String
  ops : List FileOp
deriving Repr

/-- `load_and_parse_data` over `FSx`.  The two `except` clauses are as in
`load_and_parse_data`, but the generic handler's re-open of the file
(lines 69–72) is kept unprotected: when that read raises — which it does
whenever the file has a read error, the very situation that routed the
first read into this handler — the exception propagates out of the
function after the two report prints and before any line of the dump. -/
def load_and_parse_data_x (parseM : List String → Except String Metrics)
    (parseH : List String → Except String History)
    (fs : FSx) (filename : String) : LoadResultX :=
  match load_body_x parseM parseH fs filename with
  | (.ok dfs, ps) =>
    { outcome := .ok (some dfs), prints := ps, ops := [.read filename] }
  | (.error .fileNotFound, ps) =>
    { outcome := .ok none
      prints := ps ++
        ["\n❌ ERROR: File '" ++ filename ++ "' not found!",
         "   Please upload the file first."]
      ops := [.read filename] }
  | (.error (.exn msg), ps) =>
    match fs filename with
    | .ok lines =>
      { outcome := .ok none
        prints := ps ++
          ["\n❌ ERROR parsing file: " ++ msg,
           "\nFirst 10 lines of the file:"] ++ firstTenLinesDump lines
        ops := [.read filename, .read filename] }
    | .readError msg2 =>
      { outcome := .error msg2
        prints := ps ++
          ["\n❌ ERROR parsing file: " ++ msg,
           "\nFirst 10 lines of the file:"]
        ops := [.read filename, .read filename] }
    | .missing =>
      { outcome := .error
          ("[Errno 2] No such file or directory: '" ++ filename ++ "'")
        prints := ps ++
          ["\n❌ ERROR parsing file: " ++ msg,
           "\nFirst 10 lines of the file:"]
        ops := [.read filename, .read filename] }

/-- A file that is present but whose bytes do not decode: every read of
it raises the same `UnicodeDecodeError`. -/
def fsUndecodable : FSx := fun n =>
  if n = dataFile then
    .readError
      "'utf-8' codec can't decode byte 0xff in position 0: invalid start byte"
  else .missing

/-! ### Pandas aggregation primitives

`sorted(df['c'].unique())`, `value_counts().sort_index()`, `groupby` with
ascending keys, `pivot` and `fillna` are modelled on row lists. -/

/-- The distinct values of a column, sorted ascending: what
`sorted(df[c].unique())` and pandas' `sort_index` / `groupby` key order
produce. -/
def sorted_unique (xs : List Int) : List Int :=
  (xs.dedup).insertionSort (· ≤ ·)

/-- `series.value_counts().sort_index()`: each distinct value with its
number of occurrences, keyed in ascending value order (`value_counts`
orders by count, `sort_index` then re-sorts by value). -/
def value_counts_sort_index (xs : List Int) : List (Int × Nat) :=
  (sorted_unique xs).map (fun v => (v, xs.count v))

/-- The `server_id` column of the metrics table. -/
def serverIds (m : Metrics) : List Int := m.map (·.server_id)

/-- The `server_load` values of the metrics rows whose `server_id` is `s`:
`metrics_df[metrics_df['server_id'] == s]['server_load']`. -/
def loadsOf (m : Metrics) (s : Int) : List ℚ :=
  (m.filter (fun r => r.server_id = s)).map (·.server_load)

/-- `series.mean()`: the arithmetic mean (Lean's `/` returns 0 on the
empty series where pandas returns NaN). -/
def mean (xs : List ℚ) : ℚ := xs.sum / (xs.length : ℚ)

/-- `series.var()` with pandas' default `ddof = 1`: the sample variance
`Σ (x - mean)² / (n - 1)` (Lean's `/` returns 0 at `n = 1` where pandas
returns NaN). -/
def sampleVar (xs : List ℚ) : ℚ :=
  ((xs.map (fun x => (x - mean xs) ^ 2)).sum) / ((xs.length : ℚ) - 1)

/-- `series.std()` with pandas' default `ddof = 1`: the square root of the
sample variance. -/
noncomputable def sampleStd (xs : List ℚ) : ℝ :=
  Real.sqrt ((sampleVar xs : ℚ) : ℝ)

/-- `metrics_df.groupby('server_id')['server_load'].agg f`: the aggregate
of each server's loads, keyed by ascending `server_id` (pandas `groupby`
sorts its keys). -/
def groupby_server_load {α : Type} (m : Metrics) (f : List ℚ → α) :
    List (Int × α) :=
  (sorted_unique (serverIds m)).map (fun s => (s, f (loadsOf m s)))

/-! ### The plot functions' data -/

/-- The bars of `plot_request_distribution` (lines 79–80): x-positions are
the keys of `value_counts().sort_index()`, heights its counts. -/
def plot_request_distribution_bars (m : Metrics) : List (Int × Nat) :=
  value_counts_sort_index (serverIds m)

/-- The bars of the dashboard's first panel (lines 174–175), built from the
same expression as `plot_request_distribution`. -/
def dashboard_request_bars (m : Metrics) : List (Int × Nat) :=
  value_counts_sort_index (serverIds m)

/-- The bars of the dashboard's average-load panel (lines 184–185):
`metrics_df.groupby('server_id')['server_load'].mean()`. -/
def dashboard_avg_loads (m : Metrics) : List (Int × ℚ) :=
  groupby_server_load m mean

/-- The bars of the dashboard's load-variability panel (lines 206–207):
`metrics_df.groupby('server_id')['server_load'].std()`. -/
noncomputable def dashboard_load_std (m : Metrics) : List (Int × ℝ) :=
  groupby_server_load m sampleStd

/-- Line 126 of `plot_load_heatmap`: the value
`history_df.pivot(index='server_id', columns='time_step', values='load')`
holds at `(s, t)` — the `load` of the row with that `server_id` and
`time_step`, NaN (here `none`) when no row matches.  (pandas `pivot`
requires the pairs to be unique; `find?` picks the first match.) -/
def pivot_cell (h : History) (s t : Int) : Option ℚ :=
  (h.find? (fun r => r.server_id = s && r.time_step = t)).map (·.load)

/-- Line 127, `fillna(0)`: the heatmap matrix entry at `(s, t)`. -/
def heatmap_cell (h : History) (s t : Int) : ℚ :=
  (pivot_cell h s t).getD 0

/-- The heatmap's row labels: the distinct `server_id` values (pandas pivot
index, ascending). -/
def heatmap_rows (h : History) : List Int :=
  sorted_unique (h.map (·.server_id))

/-- The heatmap's column labels: the distinct `time_step` values (pandas
pivot columns, ascending). -/
def heatmap_cols (h : History) : List Int :=
  sorted_unique (h.map (·.time_step))

/-- Lines 146–147 of `plot_load_statistics`: the box data, one list of
`server_load` values per distinct `server_id`, in ascending `server_id`
order. -/
def boxplot_groups (m : Metrics) : List (List ℚ) :=
  (sorted_unique (serverIds m)).map (loadsOf m)

/-- Line 149: the box labels `'S{i}' for i in range(len(server_loads))`. -/
def boxplot_labels (m : Metrics) : List String :=
  (List.range (boxplot_groups m).length).map (fun i => "S" ++ toString i)

/-! ### Helper lemmas -/

theorem findMarkerIdx_eq_none_iff (lines : List String) :
    findMarkerIdx lines = none ↔ ∀ l ∈ lines, startsWith marker l = false := by
  induction lines with
  | nil => simp [findMarkerIdx]
  | cons l ls ih =>
    cases hl : startsWith marker l
    · simp only [findMarkerIdx, hl, Bool.false_eq_true, if_false,
        Option.map_eq_none', ih, List.mem_cons]
      constructor
      · rintro hall x (rfl | hx)
        · exact hl
        · exact hall x hx
      · intro hall x hx
        exact hall x (Or.inr hx)
    · simp only [findMarkerIdx, hl, if_true]
      constructor
      · intro hsome
        exact (Option.some_ne_none 0 hsome).elim
      · intro hall
        exact absurd (hall l (List.mem_cons_self l ls)) (by simp [hl])

theorem findMarkerIdx_some (lines : List String) (i : Nat)
    (h : findMarkerIdx lines = some i) :
    ∃ hi : i < lines.length, startsWith marker (lines.get ⟨i, hi⟩) = true := by
  induction lines generalizing i with
  | nil => simp [findMarkerIdx] at h
  | cons l ls ih =>
    cases hl : startsWith marker l
    · rcases hf : findMarkerIdx ls with _ | j
      · rw [findMarkerIdx, hl] at h
        simp [hf] at h
      · rw [findMarkerIdx, hl] at h
        simp only [Bool.false_eq_true, if_false, hf, Option.map_some',
          Option.some.injEq] at h
        subst h
        obtain ⟨hjl, hjp⟩ := ih j hf
        exact ⟨Nat.succ_lt_succ hjl, hjp⟩
    · rw [findMarkerIdx, hl] at h
      simp only [if_true, Option.some.injEq] at h
      subst h
      exact ⟨Nat.succ_pos _, hl⟩

theorem findMarkerIdx_isSome (lines : List String)
    (h : ∃ l ∈ lines, startsWith marker l = true) :
    ∃ i, findMarkerIdx lines = some i := by
  rcases Option.eq_none_or_eq_some (findMarkerIdx lines) with hn | hs
  · obtain ⟨l, hl, hp⟩ := h
    have := (findMarkerIdx_eq_none_iff lines).mp hn l hl
    simp [hp] at this
  · exact hs

theorem lookup_map_key {β : Type} (l : List Int) (g : Int → β) (s : Int)
    (hs : s ∈ l) : ((l.map (fun v => (v, g v))).lookup s) = some (g s) := by
  induction l with
  | nil => cases hs
  | cons a t ih =>
    rcases List.mem_cons.mp hs with h | h
    · subst h; simp [List.lookup]
    · by_cases hsa : s = a
      · subst hsa; simp [List.lookup]
      · have hb : (s == a) = false := beq_eq_false_iff_ne.mpr hsa
        simp [List.lookup, hb, ih h]

theorem mem_sorted_unique (xs : List Int) (s : Int) :
    s ∈ sorted_unique xs ↔ s ∈ xs := by
  rw [sorted_unique, (List.perm_insertionSort _ _).mem_iff, List.mem_dedup]

theorem sorted_unique_nodup (xs : List Int) : (sorted_unique xs).Nodup :=
  (List.perm_insertionSort _ _).nodup_iff.mpr (List.nodup_dedup xs)

theorem sorted_unique_sorted_lt (xs : List Int) :
    (sorted_unique xs).Sorted (· < ·) :=
  (List.sorted_insertionSort _ _).lt_of_le (sorted_unique_nodup xs)

theorem count_serverIds_eq_filter_length (m : Metrics) (s : Int) :
    (serverIds m).count s = (m.filter (fun r => r.server_id = s)).length := by
  induction m with
  | nil => rfl
  | cons r t ih =>
    by_cases h : r.server_id = s
    · simp [serverIds, List.count_cons, h, List.filter_cons] at ih ⊢
      omega
    · have hb : (s == r.server_id) = false :=
        beq_eq_false_iff_ne.mpr (fun hsr => h hsr.symm)
      simp [serverIds, List.count_cons, h, hb, List.filter_cons] at ih ⊢
      exact ih

theorem load_ops (parseM : List String → Except String Metrics)
    (parseH : List String → Except String History)
    (fs : FS) (filename : String) :
    ∀ op ∈ (load_and_parse_data parseM parseH fs filename).ops,
      op = FileOp.read filename := by
  rcases hb : load_body parseM parseH fs filename with ⟨res, ps⟩
  match res with
  | .ok dfs => simp [load_and_parse_data, hb]
  | .error .fileNotFound => simp [load_and_parse_data, hb]
  | .error (.exn msg) => simp [load_and_parse_data, hb]

theorem main_ops_eq (parseM : List String → Except String Metrics)
    (parseH : List String → Except String History) (fs : FS) :
    (Graph.main parseM parseH fs).ops =
      (load_and_parse_data parseM parseH fs dataFile).ops := by
  rcases hr : (load_and_parse_data parseM parseH fs dataFile).result with _ | ⟨m, h⟩
  · simp [Graph.main, hr]
  · simp [Graph.main, hr]

/-! ### Concrete fixtures for witnesses -/

/-- A parse stub that accepts any metrics text. -/
def parseM0 : List String → Except String Metrics := fun _ => .ok []

/-- A parse stub that accepts any history text. -/
def parseH0 : List String → Except String History := fun _ => .ok []

/-- A well-formed file: two CSV sections around the sentinel line. -/
def sampleLines : List String :=
  ["server_id,server_load", "0,5", "1,7", "# Server Load History",
   "server_id,time_step,load", "0,0,1"]

/-- A file system holding the sample file under the expected name. -/
def fs0 : FS := fun n => if n = dataFile then some sampleLines else none

/-- A file system with no files at all. -/
def fsMissing : FS := fun _ => none

/-- A file whose lines never start with the sentinel marker. -/
def noMarkerLines : List String := ["server_id,server_load", "0,5"]

/-- A file system holding the marker-less file under the expected name. -/
def fsNoMarker : FS := fun n => if n = dataFile then some noMarkerLines else none

/-! ### The claims -/

/-- C1: for every input file with a sentinel marker line
`# Server Load History`, `load_and_parse_data` splits the file at that
line: the metrics table is parsed from the lines strictly before it, the
history table from the lines strictly after it, and the sentinel line
belongs to neither part (the decomposition
`take i ++ [sentinel] ++ drop (i+1) = lines` pins it between the two). -/
theorem C1_split_at_sentinel
    (parseM : List String → Except String Metrics)
    (parseH : List String → Except String History)
    (fs : FS) (filename : String) (lines : List String)
    (metrics_df : Metrics) (history_df : History)
    (hfs : fs filename = some lines)
    (hmark : ∃ l ∈ lines, startsWith marker l = true) :
    ∃ i, ∃ hi : i < lines.length,
      startsWith marker (lines.get ⟨i, hi⟩) = true ∧
      lines.take i ++ lines.get ⟨i, hi⟩ :: lines.drop (i + 1) = lines ∧
      (parseM (lines.take i) = .ok metrics_df →
       parseH (lines.drop (i + 1)) = .ok history_df →
       (load_and_parse_data parseM parseH fs filename).result =
         some (metrics_df, history_df)) := by
  obtain ⟨i, hfind⟩ := findMarkerIdx_isSome lines hmark
  obtain ⟨hi, hp⟩ := findMarkerIdx_some lines i hfind
  refine ⟨i, hi, hp, ?_, ?_⟩
  · rw [show lines.get ⟨i, hi⟩ = lines[i] from rfl,
      ← List.drop_eq_getElem_cons hi, List.take_append_drop]
  · intro hm hh
    have hb : load_body parseM parseH fs filename =
        (.ok (metrics_df, history_df),
         ["  Total lines read: " ++ toString lines.length,
          "  Split index found at line: " ++ toString i]) := by
      simp [load_body, hfs, hfind, hm, hh]
    simp [load_and_parse_data, hb]

/-- Witness for C1 at a concrete file. -/
theorem C1_split_at_sentinel_witness :
    fs0 dataFile = some sampleLines ∧
    (∃ l ∈ sampleLines, startsWith marker l = true) ∧
    (∃ i, ∃ hi : i < sampleLines.length,
      startsWith marker (sampleLines.get ⟨i, hi⟩) = true ∧
      sampleLines.take i ++ sampleLines.get ⟨i, hi⟩ ::
        sampleLines.drop (i + 1) = sampleLines ∧
      (parseM0 (sampleLines.take i) = .ok [] →
       parseH0 (sampleLines.drop (i + 1)) = .ok [] →
       (load_and_parse_data parseM0 parseH0 fs0 dataFile).result =
         some ([], []))) :=
  ⟨rfl, by decide,
    C1_split_at_sentinel parseM0 parseH0 fs0 dataFile sampleLines [] []
      rfl (by decide)⟩

/-- C2: when no line of the file starts with the sentinel marker,
`load_and_parse_data` produces no table: it returns `(None, None)` (the
`ValueError` of line 45 is caught by the generic handler rather than
raised to the caller) and reports the parse error whose message is
`Could not find '# Server Load History' marker in CSV`. -/
theorem C2_marker_missing
    (parseM : List String → Except String Metrics)
    (parseH : List String → Except String History)
    (fs : FS) (filename : String) (lines : List String)
    (hfs : fs filename = some lines)
    (hno : ∀ l ∈ lines, startsWith marker l = false) :
    (load_and_parse_data parseM parseH fs filename).result = none ∧
    ("\n❌ ERROR parsing file: " ++
        "Could not find '# Server Load History' marker in CSV")
      ∈ (load_and_parse_data parseM parseH fs filename).prints := by
  have hfind : findMarkerIdx lines = none :=
    (findMarkerIdx_eq_none_iff lines).mpr hno
  have hb : load_body parseM parseH fs filename =
      (.error (.exn "Could not find '# Server Load History' marker in CSV"),
       ["  Total lines read: " ++ toString lines.length]) := by
    simp [load_body, hfs, hfind]
  constructor
  · simp [load_and_parse_data, hb]
  · simp [load_and_parse_data, hb]

/-- Witness for C2 at a concrete marker-less file. -/
theorem C2_marker_missing_witness :
    fsNoMarker dataFile = some noMarkerLines ∧
    (∀ l ∈ noMarkerLines, startsWith marker l = false) ∧
    ((load_and_parse_data parseM0 parseH0 fsNoMarker dataFile).result = none ∧
     ("\n❌ ERROR parsing file: " ++
         "Could not find '# Server Load History' marker in CSV")
       ∈ (load_and_parse_data parseM0 parseH0 fsNoMarker dataFile).prints) :=
  ⟨rfl, by decide,
    C2_marker_missing parseM0 parseH0 fsNoMarker dataFile noMarkerLines
      rfl (by decide)⟩

/-- C3: when the input file does not exist, `load_and_parse_data` reports
that the file was not found and returns `(None, None)`, and `main`,
receiving it, prints the failure message and renders no chart. -/
theorem C3_missing_file
    (parseM : List String → Except String Metrics)
    (parseH : List String → Except String History)
    (fs : FS)
    (hfs : fs dataFile = none) :
    (load_and_parse_data parseM parseH fs dataFile).result = none ∧
    ("\n❌ ERROR: File 'load_balancer_data.csv' not found!")
      ∈ (load_and_parse_data parseM parseH fs dataFile).prints ∧
    (Graph.main parseM parseH fs).charts = [] ∧
    ("\n❌ Failed to load data. Please check the file and try again.")
      ∈ (Graph.main parseM parseH fs).prints := by
  have hb : load_body parseM parseH fs dataFile = (.error .fileNotFound, []) := by
    simp [load_body, hfs]
  have hload : (load_and_parse_data parseM parseH fs dataFile).result = none := by
    simp [load_and_parse_data, hb]
  refine ⟨hload, ?_, ?_, ?_⟩
  · simp [load_and_parse_data, hb]
    rfl
  · simp [Graph.main, hload]
  · simp [Graph.main, hload]

/-- Witness for C3 at the empty file system. -/
theorem C3_missing_file_witness :
    fsMissing dataFile = none ∧
    ((load_and_parse_data parseM0 parseH0 fsMissing dataFile).result = none ∧
     ("\n❌ ERROR: File 'load_balancer_data.csv' not found!")
       ∈ (load_and_parse_data parseM0 parseH0 fsMissing dataFile).prints ∧
     (Graph.main parseM0 parseH0 fsMissing).charts = [] ∧
     ("\n❌ Failed to load data. Please check the file and try again.")
       ∈ (Graph.main parseM0 parseH0 fsMissing).prints) :=
  ⟨rfl, C3_missing_file parseM0 parseH0 fsMissing rfl⟩

/-- C4: whenever `load_and_parse_data` succeeds, `main` renders exactly the
five charts, each once, in the fixed order bar chart, timeline, heatmap,
boxplot, dashboard. -/
theorem C4_five_charts
    (parseM : List String → Except String Metrics)
    (parseH : List String → Except String History)
    (fs : FS) (metrics_df : Metrics) (history_df : History)
    (h : (load_and_parse_data parseM parseH fs dataFile).result =
      some (metrics_df, history_df)) :
    (Graph.main parseM parseH fs).charts =
      [Chart.requestDistribution, Chart.serverLoadsOverTime,
       Chart.loadHeatmap, Chart.loadStatistics, Chart.summaryDashboard] := by
  simp [Graph.main, h]

/-- Witness for C4 at a concrete file system on which loading succeeds. -/
theorem C4_five_charts_witness :
    (load_and_parse_data parseM0 parseH0 fs0 dataFile).result =
      some ([], []) ∧
    (Graph.main parseM0 parseH0 fs0).charts =
      [Chart.requestDistribution, Chart.serverLoadsOverTime,
       Chart.loadHeatmap, Chart.loadStatistics, Chart.summaryDashboard] :=
  ⟨by decide, C4_five_charts parseM0 parseH0 fs0 [] [] (by decide)⟩

/-- Over the read-error-free file systems, `load_and_parse_data` returns
`some` tables exactly when the `try` block succeeds and `(None, None)` on
every `PyErr` the block raises. -/
theorem load_result_matches_body
    (parseM : List String → Except String Metrics)
    (parseH : List String → Except String History)
    (fs : FS) (filename : String) :
    (load_and_parse_data parseM parseH fs filename).result =
      match (load_body parseM parseH fs filename).1 with
      | .ok dfs => some dfs
      | .error _ => none := by
  rcases hb : load_body parseM parseH fs filename with ⟨res, ps⟩
  match res with
  | .ok dfs => simp [load_and_parse_data, hb]
  | .error .fileNotFound => simp [load_and_parse_data, hb]
  | .error (.exn msg) => simp [load_and_parse_data, hb]

/-- On a file system without read errors the extended model is
`load_and_parse_data`: the outcome is a normal return of the same value
(never a propagated exception), with the same prints and the same file
operations. -/
theorem load_and_parse_data_x_lift
    (parseM : List String → Except String Metrics)
    (parseH : List String → Except String History)
    (fs : FS) (filename : String) :
    (load_and_parse_data_x parseM parseH (liftFS fs) filename).outcome =
      .ok (load_and_parse_data parseM parseH fs filename).result ∧
    (load_and_parse_data_x parseM parseH (liftFS fs) filename).prints =
      (load_and_parse_data parseM parseH fs filename).prints ∧
    (load_and_parse_data_x parseM parseH (liftFS fs) filename).ops =
      (load_and_parse_data parseM parseH fs filename).ops := by
  rcases hf : fs filename with _ | lines
  · have hb : load_body parseM parseH fs filename =
        (.error .fileNotFound, []) := by
      simp [load_body, hf]
    have hbx : load_body_x parseM parseH (liftFS fs) filename =
        (.error .fileNotFound, []) := by
      simp [load_body_x, liftFS, hf]
    refine ⟨?_, ?_, ?_⟩ <;>
      simp [load_and_parse_data, load_and_parse_data_x, hb, hbx]
  · rcases hbody : load_body parseM parseH fs filename with ⟨res, ps⟩
    have hbx : load_body_x parseM parseH (liftFS fs) filename = (res, ps) := by
      rw [← hbody]
      simp only [load_body_x, load_body, liftFS, hf]
    match res with
    | .ok dfs =>
      refine ⟨?_, ?_, ?_⟩ <;>
        simp [load_and_parse_data, load_and_parse_data_x, hbody, hbx]
    | .error .fileNotFound =>
      refine ⟨?_, ?_, ?_⟩ <;>
        simp [load_and_parse_data, load_and_parse_data_x, hbody, hbx]
    | .error (.exn msg) =>
      refine ⟨?_, ?_, ?_⟩ <;>
        simp [load_and_parse_data, load_and_parse_data_x, hbody, hbx,
          liftFS, hf]

/-- C9 counterexample: at a present but undecodable file, the generic
handler's unprotected re-read raises again and the exception leaves
`load_and_parse_data` — the outcome is a propagated exception, not a
returned `(None, None)`. -/
theorem C9_exception_propagates :
    (load_and_parse_data_x parseM0 parseH0 fsUndecodable dataFile).outcome =
      .error
        "'utf-8' codec can't decode byte 0xff in position 0: invalid start byte" ∧
    (load_and_parse_data_x parseM0 parseH0 fsUndecodable dataFile).outcome ≠
      .ok none := by
  constructor
  · rfl
  · intro h
    rw [show (load_and_parse_data_x parseM0 parseH0 fsUndecodable
        dataFile).outcome =
      Except.error
        "'utf-8' codec can't decode byte 0xff in position 0: invalid start byte"
      from rfl] at h
    exact Except.noConfusion h

/-- C9 amended: an exception raised inside the `try` block is caught and
`(None, None)` returned whenever the file is absent or its read succeeds
— the cases in which the generic handler's re-read cannot itself raise;
but when reading the file raises a non-`FileNotFoundError` error, the
handler's unprotected re-read (lines 69–72) raises it again and the
exception propagates to the caller. -/
theorem C9_caught_unless_reread_raises
    (parseM : List String → Except String Metrics)
    (parseH : List String → Except String History)
    (fs : FSx) (filename : String) :
    ((fs filename = .missing ∨ (∃ lines, fs filename = .ok lines)) →
      (load_and_parse_data_x parseM parseH fs filename).outcome =
        .ok (match (load_body_x parseM parseH fs filename).1 with
             | .ok dfs => some dfs
             | .error _ => none)) ∧
    (∀ msg, fs filename = .readError msg →
      (load_and_parse_data_x parseM parseH fs filename).outcome =
        .error msg) := by
  constructor
  · rintro (hmiss | ⟨lines, hok⟩)
    · have hb : load_body_x parseM parseH fs filename =
          (.error .fileNotFound, []) := by
        simp [load_body_x, hmiss]
      simp [load_and_parse_data_x, hb]
    · rcases hbody : load_body_x parseM parseH fs filename with ⟨res, ps⟩
      match res with
      | .ok dfs => simp [load_and_parse_data_x, hbody]
      | .error .fileNotFound => simp [load_and_parse_data_x, hbody]
      | .error (.exn msg) => simp [load_and_parse_data_x, hbody, hok]
  · intro msg hre
    have hb : load_body_x parseM parseH fs filename =
        (.error (.exn msg), []) := by
      simp [load_body_x, hre]
    simp [load_and_parse_data_x, hb, hre]

theorem map_fst_pairs {β : Type} (l : List Int) (g : Int → β) :
    (l.map (fun v => (v, g v))).map Prod.fst = l := by
  rw [List.map_map]
  exact List.map_id _

/-- C5: in `plot_request_distribution` and the first dashboard panel, the
two charts draw the same bars; the bar of each `server_id` has height the
number of metrics rows with that `server_id`; the bars are keyed by
ascending `server_id` and there is one bar exactly for each `server_id`
occurring in the table. -/
theorem C5_request_bars (m : Metrics) :
    plot_request_distribution_bars m = dashboard_request_bars m ∧
    ((plot_request_distribution_bars m).map Prod.fst).Sorted (· < ·) ∧
    (∀ s : Int, s ∈ (plot_request_distribution_bars m).map Prod.fst ↔
      ∃ r ∈ m, r.server_id = s) ∧
    (∀ p ∈ plot_request_distribution_bars m,
      p.2 = (m.filter (fun r => r.server_id = p.1)).length) := by
  have hkeys : (plot_request_distribution_bars m).map Prod.fst =
      sorted_unique (serverIds m) :=
    map_fst_pairs _ _
  refine ⟨rfl, ?_, ?_, ?_⟩
  · rw [hkeys]
    exact sorted_unique_sorted_lt _
  · intro s
    rw [hkeys, mem_sorted_unique]
    simp [serverIds, eq_comm]
  · intro p hp
    obtain ⟨v, _, rfl⟩ := List.mem_map.mp hp
    exact count_serverIds_eq_filter_length m v

/-- C6: for every `server_id` occurring in the metrics table, the
dashboard's average-load panel shows the arithmetic mean (sum over count)
of that server's `server_load` values, its load-variability panel shows
their sample standard deviation (pandas `std`, the square root of
`Σ (x − mean)² / (n − 1)`), and the panels' keys are exactly the distinct
`server_id` values in ascending order. -/
theorem C6_dashboard_mean_std (m : Metrics) (s : Int)
    (hs : s ∈ serverIds m) :
    (dashboard_avg_loads m).lookup s =
      some ((loadsOf m s).sum / ((loadsOf m s).length : ℚ)) ∧
    (dashboard_load_std m).lookup s =
      some (Real.sqrt ((sampleVar (loadsOf m s) : ℚ) : ℝ)) ∧
    (dashboard_avg_loads m).map Prod.fst = sorted_unique (serverIds m) := by
  have hmem : s ∈ sorted_unique (serverIds m) :=
    (mem_sorted_unique _ _).mpr hs
  refine ⟨?_, ?_, ?_⟩
  · have h1 := lookup_map_key (sorted_unique (serverIds m))
      (fun v => mean (loadsOf m v)) s hmem
    simpa [dashboard_avg_loads, groupby_server_load, mean] using h1
  · have h2 := lookup_map_key (sorted_unique (serverIds m))
      (fun v => sampleStd (loadsOf m v)) s hmem
    simpa [dashboard_load_std, groupby_server_load, sampleStd] using h2
  · exact map_fst_pairs _ _

/-- A small concrete metrics table for witnesses. -/
def mSample : Metrics := [⟨0, 2⟩, ⟨0, 4⟩, ⟨1, 3⟩]

/-- Witness for C6 at a concrete metrics table and server id. -/
theorem C6_dashboard_mean_std_witness :
    (0 : Int) ∈ serverIds mSample ∧
    ((dashboard_avg_loads mSample).lookup 0 =
      some ((loadsOf mSample 0).sum / ((loadsOf mSample 0).length : ℚ)) ∧
     (dashboard_load_std mSample).lookup 0 =
      some (Real.sqrt ((sampleVar (loadsOf mSample 0) : ℚ) : ℝ)) ∧
     (dashboard_avg_loads mSample).map Prod.fst =
       sorted_unique (serverIds mSample)) :=
  ⟨by decide, C6_dashboard_mean_std mSample 0 (by decide)⟩

/-- C7: with at most one history row per `(server_id, time_step)` pair,
the heatmap matrix of `plot_load_heatmap` holds at `(s, t)` the load the
table records for that pair, and 0 (from `fillna(0)`) at every pair with
no row. -/
theorem C7_heatmap_cells (h : History)
    (huniq : ∀ r1 ∈ h, ∀ r2 ∈ h, r1.server_id = r2.server_id →
      r1.time_step = r2.time_step → r1 = r2) :
    (∀ r ∈ h, heatmap_cell h r.server_id r.time_step = r.load) ∧
    (∀ s t : Int, (∀ r ∈ h, ¬(r.server_id = s ∧ r.time_step = t)) →
      heatmap_cell h s t = 0) := by
  constructor
  · intro r hr
    have hsome : (h.find? (fun x =>
        x.server_id = r.server_id && x.time_step = r.time_step)).isSome :=
      List.find?_isSome.mpr ⟨r, hr, by simp⟩
    obtain ⟨r', hr'⟩ := Option.isSome_iff_exists.mp hsome
    have hmem := List.mem_of_find?_eq_some hr'
    have hpred := List.find?_some hr'
    simp only [Bool.and_eq_true, decide_eq_true_eq] at hpred
    have heq : r' = r := huniq r' hmem r hr hpred.1 hpred.2
    simp [heatmap_cell, pivot_cell, hr', heq]
  · intro s t hnone
    have hfind : h.find? (fun x => x.server_id = s && x.time_step = t)
        = none := by
      apply List.find?_eq_none.mpr
      intro x hx
      simp only [Bool.and_eq_true, decide_eq_true_eq, not_and]
      intro h1 h2
      exact hnone x hx ⟨h1, h2⟩
    simp [heatmap_cell, pivot_cell, hfind]

/-- A small concrete history table for witnesses. -/
def hSample : History := [⟨0, 0, 1⟩, ⟨0, 1, 2⟩, ⟨1, 0, 3⟩]

/-- Witness for C7 at a concrete history table. -/
theorem C7_heatmap_cells_witness :
    (∀ r1 ∈ hSample, ∀ r2 ∈ hSample, r1.server_id = r2.server_id →
      r1.time_step = r2.time_step → r1 = r2) ∧
    ((∀ r ∈ hSample, heatmap_cell hSample r.server_id r.time_step = r.load) ∧
     (∀ s t : Int, (∀ r ∈ hSample, ¬(r.server_id = s ∧ r.time_step = t)) →
       heatmap_cell hSample s t = 0)) :=
  ⟨by decide, C7_heatmap_cells hSample (by decide)⟩

/-- C8: the program writes no file: on every input its file-operation
trace consists only of read opens of `load_balancer_data.csv` (once on
success or a missing file, twice when the generic exception handler
re-reads the file), so the input file is left unchanged and the only
outputs are the rendered charts and the console text. -/
theorem C8_no_file_writes
    (parseM : List String → Except String Metrics)
    (parseH : List String → Except String History)
    (fs : FS) :
    (Graph.main parseM parseH fs).ops = [FileOp.read dataFile] ∨
    (Graph.main parseM parseH fs).ops =
      [FileOp.read dataFile, FileOp.read dataFile] := by
  rw [main_ops_eq]
  rcases hb : load_body parseM parseH fs dataFile with ⟨res, ps⟩
  match res with
  | .ok dfs => left; simp [load_and_parse_data, hb]
  | .error .fileNotFound => left; simp [load_and_parse_data, hb]
  | .error (.exn msg) => right; simp [load_and_parse_data, hb]

/-- C10: the boxes of `plot_load_statistics` are the load lists of the
distinct `server_id` values in ascending order, while the labels read
`S0, S1, …` by position; whenever the sorted distinct `server_id` list is
not exactly `0, 1, …, n−1`, some position `i` holds the data of a server
`s ≠ i` under the label `S{i}`. -/
theorem C10_boxplot_mislabels (m : Metrics)
    (hne : sorted_unique (serverIds m) ≠
      (List.range (sorted_unique (serverIds m)).length).map Int.ofNat) :
    (sorted_unique (serverIds m)).Sorted (· < ·) ∧
    (∀ s : Int, s ∈ sorted_unique (serverIds m) ↔ s ∈ serverIds m) ∧
    (∀ i : Nat, (boxplot_groups m)[i]? =
      ((sorted_unique (serverIds m))[i]?).map (loadsOf m)) ∧
    boxplot_labels m = (List.range (sorted_unique (serverIds m)).length).map
      (fun i => "S" ++ toString i) ∧
    (∃ i : Nat, ∃ s : Int,
      (sorted_unique (serverIds m))[i]? = some s ∧ s ≠ (i : Int)) := by
  refine ⟨sorted_unique_sorted_lt _, fun s => mem_sorted_unique _ s, ?_, ?_, ?_⟩
  · intro i
    simp [boxplot_groups, List.getElem?_map]
  · simp [boxplot_labels, boxplot_groups]
  · by_contra hc
    push_neg at hc
    apply hne
    apply List.ext_getElem?
    intro i
    by_cases hi : i < (sorted_unique (serverIds m)).length
    · have hg : (sorted_unique (serverIds m))[i]? =
          some ((sorted_unique (serverIds m))[i]) :=
        List.getElem?_eq_getElem hi
      have hsi := hc i ((sorted_unique (serverIds m))[i]) hg
      rw [hg, List.getElem?_map, List.getElem?_range hi, hsi]
      rfl
    · rw [List.getElem?_eq_none (Nat.le_of_not_lt hi),
        List.getElem?_eq_none]
      simpa using Nat.le_of_not_lt hi

/-- A metrics table whose distinct server ids are `1, 2`, not `0, 1`. -/
def mShifted : Metrics := [⟨1, 2⟩, ⟨2, 3⟩, ⟨1, 5⟩]

/-- Witness for C10 at a concrete table with shifted server ids. -/
theorem C10_boxplot_mislabels_witness :
    (sorted_unique (serverIds mShifted) ≠
      (List.range (sorted_unique (serverIds mShifted)).length).map
        Int.ofNat) ∧
    ((sorted_unique (serverIds mShifted)).Sorted (· < ·) ∧
     (∀ s : Int, s ∈ sorted_unique (serverIds mShifted) ↔
       s ∈ serverIds mShifted) ∧
     (∀ i : Nat, (boxplot_groups mShifted)[i]? =
       ((sorted_unique (serverIds mShifted))[i]?).map (loadsOf mShifted)) ∧
     boxplot_labels mShifted =
       (List.range (sorted_unique (serverIds mShifted)).length).map
         (fun i => "S" ++ toString i) ∧
     (∃ i : Nat, ∃ s : Int,
       (sorted_unique (serverIds mShifted))[i]? = some s ∧ s ≠ (i : Int))) :=
  ⟨by decide, C10_boxplot_mislabels mShifted (by decide)⟩
